import Mathlib

/-!
Verification of the Lennard-Jones cutoff-analysis program
(`Analysis_of_Cutoff_Points.py`).

The program is a single pure numerical procedure: a potential function
`lennard_jones`, a cutoff-comparison report, and a computational-scaling
demo.  We embed the numerics over an arbitrary `LinearOrderedField` so that
the same definitions can be instantiated at `ℚ` (for fully evaluated,
decidable witnesses) and at `ℝ` (where `π` and the irrational minimiser
`2^(1/6)` live).  Python's `float('inf')` is modelled as `⊤ : WithTop α`;
every other float is modelled as the exact field value of its literal.
Presentation concerns (matplotlib calls, string formatting widths, colors)
are out of scope; the report is modelled as the structured data the print
section emits, in emission order.
-/

namespace CutoffAnalysis

/-- Embedding of `lennard_jones` (lines 5-10 of the source): below the
near-zero threshold `0.01` it returns `float('inf')`, modelled as `⊤`;
otherwise it computes `sr6 = (sigma / r)^6` and returns
`4 * epsilon * (sr6^2 - sr6)`.  The Python default arguments
`epsilon = 1.0`, `sigma = 1.0` are passed explicitly at call sites. -/
def lennard_jones {α : Type*} [LinearOrderedField α] (r epsilon sigma : α) :
    WithTop α :=
  if r < 0.01 then ⊤
  else
    let sr6 : α := (sigma / r) ^ 6
    ((4 * epsilon * (sr6 ^ 2 - sr6) : α) : WithTop α)

/-- Embedding of the significance classification inlined at lines 119-126 of
the source: strict thresholds 5.0, 2.0, 1.0 checked from highest to lowest. -/
def significance {α : Type*} [LinearOrderedField α] (percentage : α) : String :=
  if percentage > 5.0 then "High"
  else if percentage > 2.0 then "Significant"
  else if percentage > 1.0 then "Moderate"
  else "Negligible"

/-- Spec-side linearisation of the four significance tiers, used only to
state that the classification is monotone in the percentage. -/
def tierRank (tier : String) : ℕ :=
  if tier = "High" then 3
  else if tier = "Significant" then 2
  else if tier = "Moderate" then 1
  else 0

/-- The fixed cutoff list of `analyze_cutoff_comparison` (line 26). -/
def cutoffs {α : Type*} [LinearOrderedField α] : List α := [2.000, 2.5, 3.0]

/-- The fixed cutoff labels (line 27). -/
def cutoff_labels : List String := ["2.0σ", "2.5σ", "3.0σ"]

/-- The analysis parameter `epsilon = 1.0` (line 16). -/
def epsilon {α : Type*} [LinearOrderedField α] : α := 1.0

/-- The analysis parameter `sigma = 1.0` (line 17). -/
def sigma {α : Type*} [LinearOrderedField α] : α := 1.0

/-- One printed row of the detailed analysis (lines 115-128): label,
potential at the cutoff, percentage of the well depth, significance tier. -/
structure ComparisonRow (α : Type*) where
  label : String
  potential : α
  percentage : α
  significance : String
  deriving DecidableEq

/-- The rows of the detailed analysis, one per cutoff in list order
(lines 115-128): `potential = lennard_jones(cutoff, epsilon, sigma)`,
`percentage = abs(potential / epsilon) * 100`, tier from the threshold
chain.  At every cutoff in the list the `⊤` branch is unreachable
(all cutoffs exceed 0.01), so extracting with `WithTop.untop' 0` is exact. -/
def comparisonRows {α : Type*} [LinearOrderedField α] : List (ComparisonRow α) :=
  (List.zip cutoffs cutoff_labels).map fun rc =>
    let cutoff := rc.1
    let label := rc.2
    let potential := (lennard_jones cutoff epsilon sigma).untop' 0
    let percentage := |potential / epsilon| * 100
    { label := label, potential := potential, percentage := percentage,
      significance := significance percentage }

/-- Embedding of `np.linspace(a, b, n)` with its default inclusive
endpoint: n evenly spaced samples from a to b. -/
def linspace {α : Type*} [LinearOrderedField α] (a b : α) (n : ℕ) : List α :=
  (List.range n).map fun (i : ℕ) => a + (b - a) * (i : α) / ((n : α) - 1)

/-- One printed line of the COMPUTATIONAL IMPACT section (lines 133-141):
label, estimated neighbor count, relative computational cost. -/
structure ImpactLine where
  label : String
  neighbors : ℝ
  relative_cost : ℝ

/-- The density constant `density = 0.8` (line 134). -/
noncomputable def density : ℝ := 0.8

/-- The COMPUTATIONAL IMPACT lines, one per cutoff in list order
(lines 135-141): sphere volume `(4/3)*π*cutoff^3`, neighbor estimate
`volume * density`, relative cost `(cutoff/2.0)^3` relative to 2.0σ. -/
noncomputable def impactLines : List ImpactLine :=
  ((cutoffs (α := ℝ)).zip cutoff_labels).map fun rc =>
    let cutoff := rc.1
    let volume := (4 / 3) * Real.pi * cutoff ^ 3
    let neighbors := volume * density
    let relative_cost := (cutoff / 2.0) ^ 3
    { label := rc.2, neighbors := neighbors, relative_cost := relative_cost }

/-- The data `analyze_cutoff_comparison` computes and emits, in emission
order: the full and tail sample curves, the per-cutoff analysis rows, the
per-cutoff impact lines, the hard-coded three-line recommendation block
(lines 145-147), and the hard-coded closing advice (lines 148-149). -/
structure Report where
  curve : List (ℝ × WithTop ℝ)
  tail : List (ℝ × WithTop ℝ)
  rows : List (ComparisonRow ℝ)
  impact : List ImpactLine
  recommendation : List String
  closing : List String

/-- Embedding of `analyze_cutoff_comparison` (lines 12-149), stripped of
the matplotlib presentation: the curve samples `np.linspace(0.9, 4.0, 1000)`
(line 20), the tail samples `np.linspace(2.0, 4.0, 500)` (line 54), the
analysis rows, the impact lines, and the hard-coded recommendation text. -/
noncomputable def analyze_cutoff_comparison : Report where
  curve := (linspace (0.9 : ℝ) 4.0 1000).map fun r => (r, lennard_jones r epsilon sigma)
  tail := (linspace (2.0 : ℝ) 4.0 500).map fun r => (r, lennard_jones r epsilon sigma)
  rows := comparisonRows
  impact := impactLines
  recommendation :=
    ["• 2.0σ:   Very efficient, potential = -0.0615ε (6.15%)",
     "• 2.5σ:   Standard choice, potential = -0.0163ε (1.63%)",
     "• 3.0σ:   High accuracy, potential = -0.0067ε (0.67%)"]
  closing :=
    ["2.0σ cutoff sacrifices some accuracy for maximum speed.",
     "2.5σ remains the best balance for most applications."]

/-- The cutoff samples of `computational_scaling_demo` (line 154). -/
noncomputable def scaling_cutoffs : List ℝ := linspace 1.8 4.0 50

/-- The potential magnitudes of the demo (line 155): `abs(lennard_jones(r))`
with the Python defaults ε = σ = 1. -/
noncomputable def scaling_potentials : List (WithTop ℝ) :=
  scaling_cutoffs.map fun r => (lennard_jones r 1 1).map fun v => |v|

/-- The relative costs of the demo (line 156): `(r/2.5)**3`, relative
to 2.5σ. -/
noncomputable def computational_costs : List ℝ :=
  scaling_cutoffs.map fun r => (r / 2.5) ^ 3

/-- Modelled from the spec for the refinement comparison of C5: relative
computational cost as (cutoff / referenceCutoff)^3. -/
def relCost {α : Type*} [LinearOrderedField α] (cutoff ref : α) : α :=
  (cutoff / ref) ^ 3

end CutoffAnalysis

namespace CutoffAnalysis

/-- C1: for every distance r at least the near-zero threshold 0.01,
`lennard_jones` returns exactly `4*ε*((σ/r)^12 - (σ/r)^6)`; in particular
with ε = σ = 1 it returns `4*((1/r)^12 - (1/r)^6)`. -/
theorem lennard_jones_formula {α : Type*} [LinearOrderedField α]
    (r e s : α) (h : (0.01 : α) ≤ r) :
    lennard_jones r e s
        = ((4 * e * ((s / r) ^ 12 - (s / r) ^ 6) : α) : WithTop α)
      ∧ lennard_jones r 1 1
        = ((4 * ((1 / r) ^ 12 - (1 / r) ^ 6) : α) : WithTop α) := by
  constructor <;>
  · simp only [lennard_jones, if_neg (not_lt.mpr h)]
    rw [WithTop.coe_eq_coe]
    ring

/-- Witness for C1 at the concrete input r = 2 over ℚ. -/
theorem lennard_jones_formula_witness :
    lennard_jones (2 : ℚ) 1 1
      = ((4 * ((1 / 2 : ℚ) ^ 12 - (1 / 2 : ℚ) ^ 6) : ℚ) : WithTop ℚ) :=
  (lennard_jones_formula 2 1 1 (by norm_num)).2

/-- C2: for every distance strictly below the threshold 0.01 the function
returns positive infinity, and this clamp is the only special-cased branch:
for every other input the result is the finite value of the formula.  The
embedding is a total function, so no input raises. -/
theorem lennard_jones_clamp {α : Type*} [LinearOrderedField α] (r e s : α) :
    (r < (0.01 : α) → lennard_jones r e s = ⊤)
      ∧ (¬ r < (0.01 : α) →
          lennard_jones r e s
            = ((4 * e * (((s / r) ^ 6) ^ 2 - (s / r) ^ 6) : α) : WithTop α)) := by
  constructor
  · intro h
    simp [lennard_jones, h]
  · intro h
    simp only [lennard_jones, if_neg h]

/-- Witness for C2 at the concrete input r = 0.001 over ℚ: the clamp fires. -/
theorem lennard_jones_clamp_witness :
    lennard_jones (0.001 : ℚ) 1 1 = ⊤ :=
  (lennard_jones_clamp (0.001 : ℚ) 1 1).1 (by norm_num)

/-- C7: at r = σ = 1 (with ε = 1) the potential is exactly 0, the
zero-crossing. -/
theorem lennard_jones_zero_crossing {α : Type*} [LinearOrderedField α] :
    lennard_jones (1 : α) 1 1 = ((0 : α) : WithTop α) := by
  simp only [lennard_jones]
  norm_num

/-- C9: `lennard_jones` is deterministic — equal arguments give equal
results.  Purity is intrinsic to the embedding: the definition reads no
state and performs no effects, so its value depends on (r, ε, σ) alone. -/
theorem lennard_jones_deterministic {α : Type*} [LinearOrderedField α]
    (r₁ r₂ e₁ e₂ s₁ s₂ : α) (hr : r₁ = r₂) (he : e₁ = e₂) (hs : s₁ = s₂) :
    lennard_jones r₁ e₁ s₁ = lennard_jones r₂ e₂ s₂ := by
  rw [hr, he, hs]

/-- Witness for C9 at the concrete input (2, 1, 1) over ℚ. -/
theorem lennard_jones_deterministic_witness :
    lennard_jones (2 : ℚ) 1 1 = lennard_jones (2 : ℚ) 1 1 :=
  lennard_jones_deterministic 2 2 1 1 1 1 rfl rfl rfl

/-- C10: the function is total, and the formula branch is reached only for
r ≥ 0.01 > 0, so the divisor r is nonzero there; every non-positive r is
below the threshold and yields positive infinity. -/
theorem lennard_jones_guard {α : Type*} [LinearOrderedField α] (r e s : α) :
    ((0 : α) < 0.01)
      ∧ (r ≤ 0 → r < (0.01 : α) ∧ lennard_jones r e s = ⊤)
      ∧ (¬ r < (0.01 : α) → (0.01 : α) ≤ r ∧ 0 < r ∧ r ≠ 0) := by
  refine ⟨by norm_num, fun h => ?_, fun h => ?_⟩
  · have hlt : r < (0.01 : α) := lt_of_le_of_lt h (by norm_num)
    exact ⟨hlt, by simp [lennard_jones, hlt]⟩
  · have hle : (0.01 : α) ≤ r := not_lt.mp h
    have hpos : (0 : α) < r := lt_of_lt_of_le (by norm_num) hle
    exact ⟨hle, hpos, ne_of_gt hpos⟩

/-- Witness for C10 at the concrete input r = -1 over ℚ: a negative
distance is clamped to positive infinity. -/
theorem lennard_jones_guard_witness :
    (-1 : ℚ) < 0.01 ∧ lennard_jones (-1 : ℚ) 1 1 = ⊤ :=
  (lennard_jones_guard (-1 : ℚ) 1 1).2.1 (by norm_num)

/-- The "High" tier is returned exactly above 5.0. -/
lemma significance_high_iff {α : Type*} [LinearOrderedField α] (p : α) :
    significance p = "High" ↔ (5.0 : α) < p := by
  unfold significance
  split_ifs with h1 h2 h3
  · exact iff_of_true rfl h1
  · exact iff_of_false (by decide) h1
  · exact iff_of_false (by decide) h1
  · exact iff_of_false (by decide) h1

/-- The "Significant" tier is returned exactly on (2.0, 5.0]. -/
lemma significance_significant_iff {α : Type*} [LinearOrderedField α] (p : α) :
    significance p = "Significant" ↔ ((2.0 : α) < p ∧ ¬ (5.0 : α) < p) := by
  unfold significance
  split_ifs with h1 h2 h3
  · exact iff_of_false (by decide) fun hc => hc.2 h1
  · exact iff_of_true rfl ⟨h2, h1⟩
  · exact iff_of_false (by decide) fun hc => h2 hc.1
  · exact iff_of_false (by decide) fun hc => h2 hc.1

/-- The "Moderate" tier is returned exactly on (1.0, 2.0]. -/
lemma significance_moderate_iff {α : Type*} [LinearOrderedField α] (p : α) :
    significance p = "Moderate" ↔ ((1.0 : α) < p ∧ ¬ (2.0 : α) < p) := by
  unfold significance
  split_ifs with h1 h2 h3
  · exact iff_of_false (by decide) fun hc => hc.2 (by linarith)
  · exact iff_of_false (by decide) fun hc => hc.2 h2
  · exact iff_of_true rfl ⟨h3, h2⟩
  · exact iff_of_false (by decide) fun hc => h3 hc.1

/-- The "Negligible" tier is returned exactly at or below 1.0. -/
lemma significance_negligible_iff {α : Type*} [LinearOrderedField α] (p : α) :
    significance p = "Negligible" ↔ p ≤ (1.0 : α) := by
  unfold significance
  split_ifs with h1 h2 h3
  · exact iff_of_false (by decide) (by simpa using lt_trans (by norm_num) h1)
  · exact iff_of_false (by decide) (by simpa using lt_trans (by norm_num) h2)
  · exact iff_of_false (by decide) (by simpa using h3)
  · exact iff_of_true rfl (not_lt.mp h3)

/-- The tier rank of each classification, as a chain of the same
threshold tests. -/
lemma tierRank_significance {α : Type*} [LinearOrderedField α] (p : α) :
    tierRank (significance p)
      = if (5.0 : α) < p then 3
        else if (2.0 : α) < p then 2
        else if (1.0 : α) < p then 1
        else 0 := by
  unfold significance
  split_ifs <;> decide

/-- The tier rank never decreases as the percentage grows. -/
lemma tierRank_significance_mono {α : Type*} [LinearOrderedField α]
    {p q : α} (hpq : p ≤ q) :
    tierRank (significance p) ≤ tierRank (significance q) := by
  rw [tierRank_significance, tierRank_significance]
  split_ifs <;> first | omega | (exfalso; linarith)

/-- C3: the significance classification returns "High" iff p > 5.0, else
"Significant" iff p > 2.0, else "Moderate" iff p > 1.0, else "Negligible";
the thresholds are strict, so 5.0 is not "High" and 1.0 is "Negligible",
and the classification is monotone in p. -/
theorem significance_classification {α : Type*} [LinearOrderedField α]
    (p q : α) (hpq : p ≤ q) :
    ((significance p = "High" ↔ (5.0 : α) < p)
        ∧ (significance p = "Significant" ↔ ((2.0 : α) < p ∧ ¬ (5.0 : α) < p))
        ∧ (significance p = "Moderate" ↔ ((1.0 : α) < p ∧ ¬ (2.0 : α) < p))
        ∧ (significance p = "Negligible" ↔ p ≤ (1.0 : α)))
      ∧ significance (5.0 : α) ≠ "High"
      ∧ significance (1.0 : α) = "Negligible"
      ∧ tierRank (significance p) ≤ tierRank (significance q) := by
  refine ⟨⟨significance_high_iff p, significance_significant_iff p,
      significance_moderate_iff p, significance_negligible_iff p⟩, ?_, ?_,
      tierRank_significance_mono hpq⟩
  · rw [Ne, significance_high_iff]
    simp
  · rw [significance_negligible_iff]

/-- Witness for C3 at the concrete inputs p = 1.0, q = 6 over ℚ. -/
theorem significance_classification_witness :
    significance (1.0 : ℚ) = "Negligible"
      ∧ tierRank (significance (1.0 : ℚ)) ≤ tierRank (significance (6 : ℚ)) :=
  ⟨(significance_classification (1.0 : ℚ) 6 (by norm_num)).2.2.1,
    (significance_classification (1.0 : ℚ) 6 (by norm_num)).2.2.2⟩

/-- Extraction commutes with the negation that cast-pushing introduces. -/
lemma untop'_coe_neg {α : Type*} [LinearOrderedAddCommGroup α] (d a : α) :
    WithTop.untop' d (-(a : WithTop α)) = -a := by
  rw [← WithTop.LinearOrderedAddCommGroup.coe_neg, WithTop.untop'_coe]

/-- The three analysis rows, fully evaluated over ℚ: the exact potential,
percentage and tier at each of the cutoffs 2.0, 2.5, 3.0. -/
lemma comparisonRows_rat :
    comparisonRows (α := ℚ)
      = [{ label := "2.0σ", potential := -63 / 1024,
           percentage := 1575 / 256, significance := "High" },
         { label := "2.5σ", potential := -3983616 / 244140625,
           percentage := 15934464 / 9765625, significance := "Moderate" },
         { label := "3.0σ", potential := -2912 / 531441,
           percentage := 291200 / 531441, significance := "Negligible" }] := by
  simp only [comparisonRows, cutoffs, cutoff_labels, epsilon, sigma,
    List.zip_cons_cons, List.zip_nil_right, List.map_cons, List.map_nil]
  norm_num [lennard_jones, significance, WithTop.untop'_coe, untop'_coe_neg,
    abs_neg, abs_of_nonneg]

/-- C4 as stated is false on the code: with ε = σ = 1 the comparison's
evaluated potential at cutoff 3.0 is -2912/531441 ≈ -0.005479, which is
not within 1e-3 of -0.0067 (the value the hard-coded recommendation text
on line 147 asserts). -/
theorem cutoff3_not_near_minus_0067 :
    ¬ |((comparisonRows (α := ℚ)).getD 2 ⟨"", 0, 0, ""⟩).potential
          - (-0.0067)| ≤ 0.001 := by
  rw [comparisonRows_rat]
  norm_num [lt_abs]

/-- C4 amended: with ε = σ = 1 and cutoff 3.0, the evaluated potential is
exactly -2912/531441 ≈ -0.00548 (within 1e-3 of -0.0055), the derived
percentage is ≈ 0.548, and the significance tier is "Negligible". -/
theorem cutoff3_row_amended :
    ((comparisonRows (α := ℚ)).getD 2 ⟨"", 0, 0, ""⟩).potential
        = -2912 / 531441
      ∧ |((comparisonRows (α := ℚ)).getD 2 ⟨"", 0, 0, ""⟩).potential
            - (-0.0055)| ≤ 0.001
      ∧ |((comparisonRows (α := ℚ)).getD 2 ⟨"", 0, 0, ""⟩).percentage
            - 0.548| ≤ 0.001
      ∧ ((comparisonRows (α := ℚ)).getD 2 ⟨"", 0, 0, ""⟩).significance
          = "Negligible" := by
  rw [comparisonRows_rat]
  refine ⟨rfl, by norm_num [abs_le], by norm_num [abs_le], rfl⟩

/-- C5: both relative-cost computations are instances of the spec's model
(cutoff / referenceCutoff)^3 — reference 2.0 in the comparison report,
2.5 in the scaling demo — and at cutoffs 2.0 and 3.0 relative to 2.0 the
cost is exactly 1.0 and 3.375. -/
theorem relative_cost_spec :
    impactLines.map ImpactLine.relative_cost
        = (cutoffs (α := ℝ)).map (fun c => relCost c 2.0)
      ∧ computational_costs = scaling_cutoffs.map (fun r => relCost r 2.5)
      ∧ impactLines.map ImpactLine.relative_cost = [1.0, 1.953125, 3.375]
      ∧ relCost (2.0 : ℝ) 2.0 = 1.0
      ∧ relCost (3.0 : ℝ) 2.0 = 3.375 := by
  refine ⟨rfl, rfl, ?_, ?_, ?_⟩ <;>
    norm_num [impactLines, cutoffs, cutoff_labels, relCost]

/-- The sixth power of 2^(1/6) is 2. -/
lemma rmin_pow_six : ((2 : ℝ) ^ ((1 : ℝ) / 6)) ^ (6 : ℕ) = 2 := by
  rw [← Real.rpow_natCast ((2 : ℝ) ^ ((1 : ℝ) / 6)) 6,
    ← Real.rpow_mul (by norm_num : (0 : ℝ) ≤ 2)]
  norm_num

/-- The minimiser 2^(1/6) is at least 1. -/
lemma rmin_ge_one : (1 : ℝ) ≤ (2 : ℝ) ^ ((1 : ℝ) / 6) := by
  by_contra h
  push_neg at h
  have hpos : (0 : ℝ) < (2 : ℝ) ^ ((1 : ℝ) / 6) :=
    Real.rpow_pos_of_pos two_pos _
  have := pow_lt_one₀ hpos.le h (by norm_num : (6 : ℕ) ≠ 0)
  rw [rmin_pow_six] at this
  norm_num at this

/-- The potential at the minimiser is exactly -1. -/
lemma lj_at_rmin :
    lennard_jones ((2 : ℝ) ^ ((1 : ℝ) / 6)) 1 1 = ((-1 : ℝ) : WithTop ℝ) := by
  have hm6 := rmin_pow_six
  have h1m := rmin_ge_one
  simp only [lennard_jones,
    if_neg (not_lt.mpr (by linarith : (0.01 : ℝ) ≤ (2 : ℝ) ^ ((1 : ℝ) / 6)))]
  rw [WithTop.coe_eq_coe]
  have hsr : ((1 : ℝ) / (2 : ℝ) ^ ((1 : ℝ) / 6)) ^ 6 = 1 / 2 := by
    rw [div_pow, one_pow, hm6]
  rw [hsr]
  norm_num

/-- C6: with ε = σ = 1 the potential attains its minimum over r > 0 at
r = 2^(1/6), where it equals -1 = -ε, and for every r at or above the
threshold V(r) ≥ -ε. -/
theorem lennard_jones_minimum (r : ℝ) (_hr : 0 < r) :
    lennard_jones ((2 : ℝ) ^ ((1 : ℝ) / 6)) 1 1 = ((-1 : ℝ) : WithTop ℝ)
      ∧ lennard_jones ((2 : ℝ) ^ ((1 : ℝ) / 6)) 1 1 ≤ lennard_jones r 1 1
      ∧ ((0.01 : ℝ) ≤ r →
          ((-1 : ℝ) : WithTop ℝ) ≤ lennard_jones r 1 1) := by
  have key : ∀ s : ℝ, ¬ s < (0.01 : ℝ) →
      ((-1 : ℝ) : WithTop ℝ) ≤ lennard_jones s 1 1 := by
    intro s hs
    simp only [lennard_jones, if_neg hs]
    rw [WithTop.coe_le_coe]
    nlinarith [sq_nonneg (2 * ((1 / s) ^ 6) - 1)]
  refine ⟨lj_at_rmin, ?_, fun h => key r (not_lt.mpr h)⟩
  by_cases hc : r < (0.01 : ℝ)
  · rw [lj_at_rmin]
    simp [lennard_jones, hc]
  · rw [lj_at_rmin]
    exact key r hc

/-- Witness for C6 at the concrete input r = 1. -/
theorem lennard_jones_minimum_witness :
    lennard_jones ((2 : ℝ) ^ ((1 : ℝ) / 6)) 1 1 ≤ lennard_jones (1 : ℝ) 1 1 :=
  (lennard_jones_minimum 1 one_pos).2.1

/-- C8: the report carries exactly one row per cutoff in the original list
order 2.0σ, 2.5σ, 3.0σ (each row a label, potential, percentage and tier
by the shape of `ComparisonRow`), followed by one impact line per cutoff
in the same order, followed by the fixed hard-coded three-line
recommendation block. -/
theorem report_structure :
    analyze_cutoff_comparison.rows.map ComparisonRow.label
        = ["2.0σ", "2.5σ", "3.0σ"]
      ∧ analyze_cutoff_comparison.rows.length = (cutoffs (α := ℝ)).length
      ∧ analyze_cutoff_comparison.rows.map ComparisonRow.potential
          = (cutoffs (α := ℝ)).map
              (fun c => (lennard_jones c epsilon sigma).untop' 0)
      ∧ analyze_cutoff_comparison.impact.map ImpactLine.label
          = ["2.0σ", "2.5σ", "3.0σ"]
      ∧ analyze_cutoff_comparison.recommendation
          = ["• 2.0σ:   Very efficient, potential = -0.0615ε (6.15%)",
             "• 2.5σ:   Standard choice, potential = -0.0163ε (1.63%)",
             "• 3.0σ:   High accuracy, potential = -0.0067ε (0.67%)"]
      ∧ analyze_cutoff_comparison.recommendation.length = 3 :=
  ⟨rfl, rfl, rfl, rfl, rfl, rfl⟩

end CutoffAnalysis
